import Mathlib

/-!
Verification of the Achswap client-side swap logic.

The definitions below are a shallow embedding of the quoting, routing,
price-impact, slippage and persistence logic of the swap page
(src/unnamed/part_001), of the chain-contract registry
(src/client/src/lib/contracts.ts) and of the swap-settings component
(src/client/src/components/SwapSettings.tsx).

Modelling conventions:
- Ethereum addresses and symbols are Lean `String`s; JS `string.length`
  is modelled by `String.length` (all the strings involved are ASCII) and
  `string.startsWith(p)` by a take on the underlying character list.
- BigInt amounts are nonnegative in every reachable state, so they are
  modelled by `ℕ` (divisions agree with BigInt division on nonnegative
  operands).
- The on-chain router is a black box; `router.getAmountsOut` is an oracle
  parameter of type `QuoteOracle`.  A JS exception is `Except.error` with
  the error message as payload.
- JS `number` slippage arithmetic is modelled exactly: `roundToBinary64`
  rounds a rational to the nearest IEEE-754 binary64 value
  (round-to-nearest, ties-to-even), valid for the positive normal-range
  values that occur here.
-/

namespace Achswap

instance {ε α : Type} [DecidableEq ε] [DecidableEq α] : DecidableEq (Except ε α) := fun
  | .error a, .error b =>
    if h : a = b then .isTrue (by rw [h]) else .isFalse (by intro hc; cases hc; exact h rfl)
  | .error _, .ok _ => .isFalse (by intro hc; cases hc)
  | .ok _, .error _ => .isFalse (by intro hc; cases hc)
  | .ok a, .ok b =>
    if h : a = b then .isTrue (by rw [h]) else .isFalse (by intro hc; cases hc; exact h rfl)

/-! ## Chain registries -/

/-- Contract addresses of one chain (src/client/src/lib/contracts.ts,
`ChainContracts`). -/
structure ChainContracts where
  factory : String
  router : String
  explorer : String
deriving DecidableEq

/-- The table `contractsByChainId` from contracts.ts: the single entry is
chain 5042002. -/
def contractsByChainId (chainId : ℕ) : Option ChainContracts :=
  if chainId = 5042002 then
    some { factory := "0x7cC023C7184810B84657D55c1943eBfF8603B72B",
           router := "0xB92428D440c335546b69138F7fAF689F5ba8D436",
           explorer := "https://testnet.arcscan.app/tx/" }
  else
    none

/-- `getContractsForChain` from contracts.ts: throws when the chain id has
no entry (`throw new Error(...)` is modelled as `Except.error`). -/
def getContractsForChain (chainId : ℕ) : Except String ChainContracts :=
  match contractsByChainId chainId with
  | some c => Except.ok c
  | none => Except.error ("No contracts configured for chain ID " ++ toString chainId)

/-- Per-chain display/RPC configuration (swap page, `chainConfig` record
type). -/
structure ChainDisplayConfig where
  nativeSymbol : String
  wrappedSymbol : String
  rpcUrl : String
deriving DecidableEq

/-- The value attached both to key 5042002 of the `chainConfig` table and,
verbatim, to the fallback branch of `getChainConfig` in the swap page. -/
def arcChainDisplayConfig : ChainDisplayConfig :=
  { nativeSymbol := "USDC"
    wrappedSymbol := "wUSDC"
    rpcUrl := "https://rpc.testnet.arc.network" }

/-- The `chainConfig` table of the swap page: its single entry is chain
5042002. -/
def chainConfigTable (chainId : ℕ) : Option ChainDisplayConfig :=
  if chainId = 5042002 then some arcChainDisplayConfig else none

/-- `getChainConfig` from the swap page:
`chainConfig[chainId] || { nativeSymbol: 'USDC', ... }` — an unconfigured
chain id falls back to the (Arc) default object instead of failing. -/
def getChainConfig (chainId : ℕ) : ChainDisplayConfig :=
  (chainConfigTable chainId).getD arcChainDisplayConfig

/-! ## Path construction -/

/-- The zero address, used by the client as the native-asset sentinel. -/
def zeroAddress : String := "0x0000000000000000000000000000000000000000"

/-- Address translation for pool routing:
`isFromNative ? wrappedAddress : fromToken.address`. -/
def translateNative (addr wrappedAddr : String) : String :=
  if addr = zeroAddress then wrappedAddr else addr

/-- Path construction, as written identically in `fetchQuote` (lines
148-176) and `handleSwap` (lines 593-618) of the swap page: translate the
native sentinel on both ends, then pick the degenerate, direct or
wrapped-multi-hop shape. -/
def buildPath (fromAddr toAddr wrappedAddr : String) : List String :=
  let fromTokenAddress := translateNative fromAddr wrappedAddr
  let toTokenAddress := translateNative toAddr wrappedAddr
  if fromTokenAddress = toTokenAddress then
    [fromTokenAddress, toTokenAddress]
  else if fromTokenAddress = wrappedAddr ∨ toTokenAddress = wrappedAddr then
    [fromTokenAddress, toTokenAddress]
  else
    [fromTokenAddress, wrappedAddr, toTokenAddress]

/-! ## Quoting with fallback -/

/-- The black-box `router.getAmountsOut(amountIn, path)` RPC: either a list
of amounts or a thrown error (its message). -/
def QuoteOracle : Type := ℕ → List String → Except String (List ℕ)

/-- `amounts[amounts.length - 1]` for a nonempty amounts array. -/
def lastAmount (amounts : List ℕ) : ℕ :=
  (amounts.getLast?).getD 0

/-- The quote attempt of `fetchQuote` (lines 181-196): call the oracle on
the built path; on failure retry once with the untranslated direct pair
exactly when the failing path had more than 2 elements; a failing retry
rethrows the original error.  Returns the path actually used together with
the amounts. -/
def getAmountsWithFallback (oracle : QuoteOracle) (amountIn : ℕ)
    (path0 : List String) (fromAddr toAddr : String) :
    Except String (List String × List ℕ) :=
  match oracle amountIn path0 with
  | Except.ok amounts => Except.ok (path0, amounts)
  | Except.error e =>
    if path0.length > 2 then
      match oracle amountIn [fromAddr, toAddr] with
      | Except.ok amounts => Except.ok ([fromAddr, toAddr], amounts)
      | Except.error _ => Except.error e
    else
      Except.error e

/-- The no-route error message thrown by `handleSwap` (lines 631 and 634),
with the chain's wrapped and native symbols interpolated. -/
def noRouteMessage (wrappedSymbol nativeSymbol : String) : String :=
  "No liquidity pool exists for this token pair. Try using " ++ wrappedSymbol ++
    " instead of " ++ nativeSymbol ++ "."

/-- The quote attempt of `handleSwap` (lines 620-636): same retry policy as
`getAmountsWithFallback`, but when the retry fails, or a 2-element path
fails, a fresh no-route error replaces the original one. -/
def swapGetAmounts (oracle : QuoteOracle) (amountIn : ℕ)
    (path0 : List String) (fromAddr toAddr wrappedSymbol nativeSymbol : String) :
    Except String (List String × List ℕ) :=
  match oracle amountIn path0 with
  | Except.ok amounts => Except.ok (path0, amounts)
  | Except.error _ =>
    if path0.length > 2 then
      match oracle amountIn [fromAddr, toAddr] with
      | Except.ok amounts => Except.ok ([fromAddr, toAddr], amounts)
      | Except.error _ => Except.error (noRouteMessage wrappedSymbol nativeSymbol)
    else
      Except.error (noRouteMessage wrappedSymbol nativeSymbol)

/-! ## Price impact -/

/-- Price-impact estimation of `fetchQuote` (lines 201-235), in basis
points: quote the oracle for half the input on the same path, double that
output, and take the relative deviation of the actual output — guarded by
`halfAmount > 0`, by `expectedOutput > 0 && outputAmount > 0`, and by a
catch-all that turns any oracle failure into impact 0. -/
def priceImpactBps (oracle : QuoteOracle) (amountIn : ℕ)
    (path : List String) (outputAmount : ℕ) : ℕ :=
  let halfAmount := amountIn / 2
  if halfAmount > 0 then
    match oracle halfAmount path with
    | Except.ok halfAmountQuotes =>
      let expectedOutput := lastAmount halfAmountQuotes * 2
      if expectedOutput > 0 ∧ outputAmount > 0 then
        if expectedOutput > outputAmount then
          (expectedOutput - outputAmount) * 10000 / expectedOutput
        else
          (outputAmount - expectedOutput) * 10000 / expectedOutput
      else 0
    | Except.error _ => 0
  else 0

/-- The percent value stored by `setPriceImpact`:
`Number(impactBasisPoints) / 100` (the conversion is exact for every
basis-point value reachable here). -/
def priceImpactPercent (oracle : QuoteOracle) (amountIn : ℕ)
    (path : List String) (outputAmount : ℕ) : ℚ :=
  (priceImpactBps oracle amountIn path outputAmount : ℚ) / 100

/-- Modelled from the spec (section 4.2): impact in basis points is
`|expected - O| * 10000 / expected` when `expected > 0`, else 0.  Kept
separate from `priceImpactBps` to compare the code against the spec. -/
def specImpactBps (expectedOutput outputAmount : ℕ) : ℕ :=
  if expectedOutput > 0 then
    ((expectedOutput : ℤ) - (outputAmount : ℤ)).natAbs * 10000 / expectedOutput
  else 0

/-- The quote pipeline of `fetchQuote` for a token pair: build the path,
quote with fallback, read the final amount, and estimate price impact on
the path actually used. -/
def fetchQuoteResult (oracle : QuoteOracle) (amountIn : ℕ)
    (fromAddr toAddr wrappedAddr : String) :
    Except String (List String × ℕ × ℕ) :=
  match getAmountsWithFallback oracle amountIn
      (buildPath fromAddr toAddr wrappedAddr) fromAddr toAddr with
  | Except.error e => Except.error e
  | Except.ok (path, amounts) =>
    Except.ok (path, lastAmount amounts,
      priceImpactBps oracle amountIn path (lastAmount amounts))

/-! ## Slippage / minimum output -/

/-- Round-to-nearest integer, ties to the even integer, on ℚ. -/
def roundNearestEven (m : ℚ) : ℤ :=
  if m - ⌊m⌋ > 1/2 then ⌊m⌋ + 1
  else if m - ⌊m⌋ < 1/2 then ⌊m⌋
  else if ⌊m⌋ % 2 = 0 then ⌊m⌋ else ⌊m⌋ + 1

/-- Correctly rounded IEEE-754 binary64 value of a rational
(round-to-nearest, ties-to-even): the significand is `q` scaled to 53 bits
(binade exponent `Int.log 2 q`) and rounded.  Faithful for the positive
normal-range finite values this file evaluates it on; `0` maps to `0`. -/
def roundToBinary64 (q : ℚ) : ℚ :=
  if q = 0 then 0
  else (roundNearestEven (q * 2 ^ ((52 : ℤ) - Int.log 2 q)) : ℚ) /
    2 ^ ((52 : ℤ) - Int.log 2 q)

/-- The factor `BigInt(Math.floor((100 - slippage) * 100))` of `handleSwap`
line 638, with every JS `number` step modelled by binary64 rounding: the
stored slippage is `parseFloat` of the typed decimal (or a preset literal),
the subtraction and the multiplication each round their exact result. -/
def jsSlippageFactor (typedSlippage : ℚ) : ℤ :=
  ⌊roundToBinary64 (roundToBinary64 (100 - roundToBinary64 typedSlippage) * 100)⌋

/-- `amountOutMin` of `handleSwap` line 638:
`amounts[amounts.length - 1] * BigInt(Math.floor((100 - slippage) * 100)) / 10000n`. -/
def amountOutMin (quotedOutput : ℤ) (typedSlippage : ℚ) : ℤ :=
  quotedOutput * jsSlippageFactor typedSlippage / 10000

/-- Modelled from the spec (section 4.3): the slippage factor
`floor((100 - slippagePercent) * 100)` computed exactly, with no
floating-point rounding.  Kept separate from `jsSlippageFactor` to compare
the code against the spec. -/
def specSlippageFactor (s : ℚ) : ℤ :=
  ⌊(100 - s) * 100⌋

/-- Modelled from the spec (section 4.3):
`amountOutMin = quotedOutput * floor((100 - slippagePercent) * 100) / 10000`
in exact integer arithmetic. -/
def specAmountOutMin (quotedOutput : ℤ) (s : ℚ) : ℤ :=
  quotedOutput * specSlippageFactor s / 10000

/-! ## Recipient resolution -/

/-- Recipient resolution of `handleSwap` (lines 643-646):
`recipientAddress && recipientAddress.startsWith('0x') && recipientAddress.length === 42
 ? recipientAddress : address`.
JS truthiness of a string is nonemptiness; `startsWith('0x')` is a take of
the first two characters. -/
def resolveRecipient (recipientAddress walletAddress : String) : String :=
  if recipientAddress ≠ "" ∧ recipientAddress.data.take 2 = ['0', 'x'] ∧
      recipientAddress.length = 42 then
    recipientAddress
  else
    walletAddress

/-- Hexadecimal digit test for address characters. -/
def isHexDigitChar (c : Char) : Bool :=
  c.isDigit || ('a' ≤ c && c ≤ 'f') || ('A' ≤ c && c ≤ 'F')

/-- Modelled from the spec (section 4.3): a syntactically valid address is
the two characters `0x` followed by exactly 40 hexadecimal characters.
Kept separate from `resolveRecipient` to compare the code against the
spec. -/
def specValidAddress (s : String) : Bool :=
  (s.data.take 2 == ['0', 'x']) && (s.length == 42) &&
    (s.data.drop 2).all isHexDigitChar

/-! ## Approval-then-swap call sequence -/

/-- The external calls issued by the token-to-native and token-to-token
branches of `handleSwap`, in order. -/
inductive SwapCall where
  | readAllowance
  | approveGasEstimate (amount : ℕ)
  | approve (amount : ℕ)
  | awaitApprovalReceipt
  | swapGasEstimate
  | submitSwap
deriving DecidableEq

/-- The call sequence of the token-to-native branch (lines 672-720) and of
the token-to-token branch (lines 721-770) of `handleSwap`, which are
identical in this respect: read the allowance fresh, and only when it is
below `amountIn` estimate gas for, submit, and await an approval for
exactly `amountIn`; then estimate gas for and submit the swap itself. -/
def approveThenSwapCalls (allowance amountIn : ℕ) : List SwapCall :=
  SwapCall.readAllowance ::
    ((if allowance < amountIn then
        [SwapCall.approveGasEstimate amountIn, SwapCall.approve amountIn,
         SwapCall.awaitApprovalReceipt]
      else []) ++
      [SwapCall.swapGasEstimate, SwapCall.submitSwap])

/-! ## Transaction history -/

/-- `saveTransaction` (lines 526-548) acting on the stored per-chain list:
`unshift` the new record, then `pop` the last (oldest) record when the
length exceeds 50. -/
def saveTransaction {α : Type} (tx : α) (transactions : List α) : List α :=
  let updated := tx :: transactions
  if updated.length > 50 then updated.dropLast else updated

/-! ## Swap-direction flip -/

/-- The swap-page UI state touched by `handleSwapTokens`, together with the
other user-editable settings fields, to record that the flip leaves them
alone.  Token selections are `Option τ` (`Token | null`). -/
structure SwapUIState (τ : Type) where
  fromToken : Option τ
  toToken : Option τ
  fromAmount : String
  toAmount : String
  slippage : ℚ
  deadline : ℕ
  recipientAddress : String
deriving DecidableEq

/-- `handleSwapTokens` (lines 392-398): exchange the two token selections
and the two amount fields (all four setters read the pre-update values). -/
def handleSwapTokens {τ : Type} (s : SwapUIState τ) : SwapUIState τ :=
  { s with
    fromToken := s.toToken
    toToken := s.fromToken
    fromAmount := s.toAmount
    toAmount := s.fromAmount }

end Achswap

namespace Achswap

/-! ## Concrete instances used by witnesses and counterexamples -/

/-- An oracle with a pool only for direct 2-element paths. -/
def demoOracle : QuoteOracle := fun _ path =>
  if path.length = 2 then Except.ok [100, 50] else Except.error "no pool"

/-- An oracle whose every call throws. -/
def failingOracle : QuoteOracle := fun _ _ => Except.error "boom"

/-- An oracle answering 5 for input 5 and 0 for every other input. -/
def halfRichOracle : QuoteOracle := fun amt _ =>
  if amt = 5 then Except.ok [5] else Except.ok [0]

/-! ## Helper lemmas -/

lemma translateNative_zero (w : String) : translateNative zeroAddress w = w := by
  simp [translateNative]

lemma translateNative_of_ne {a : String} (w : String) (h : a ≠ zeroAddress) :
    translateNative a w = a := by
  simp [translateNative, h]

lemma translateNative_ne_zero {a w : String} (hw : w ≠ zeroAddress) :
    translateNative a w ≠ zeroAddress := by
  unfold translateNative
  split_ifs with h
  · exact hw
  · exact h

lemma buildPath_shape (f t w : String) :
    buildPath f t w = [translateNative f w, translateNative t w] ∨
    buildPath f t w = [translateNative f w, w, translateNative t w] := by
  simp only [buildPath]
  split_ifs <;> simp

lemma buildPath_length_three {f t w : String} (h : (buildPath f t w).length = 3) :
    buildPath f t w = [f, w, t] ∧ f ≠ zeroAddress ∧ t ≠ zeroAddress := by
  by_cases hf : f = zeroAddress
  · exfalso
    subst hf
    simp only [buildPath, translateNative_zero] at h
    rcases eq_or_ne w (translateNative t w) with heq | hne
    · rw [if_pos heq] at h
      simp at h
    · rw [if_neg hne] at h
      simp at h
  · by_cases ht : t = zeroAddress
    · exfalso
      subst ht
      simp only [buildPath, translateNative_zero] at h
      rcases eq_or_ne (translateNative f w) w with heq | hne
      · rw [if_pos heq] at h
        simp at h
      · rw [if_neg hne] at h
        simp at h
    · refine ⟨?_, hf, ht⟩
      rcases buildPath_shape f t w with hs | hs
      · rw [hs] at h
        simp at h
      · rw [hs, translateNative_of_ne w hf, translateNative_of_ne w ht]

lemma getAmountsWithFallback_path_cases {oracle : QuoteOracle} {amountIn : ℕ}
    {path0 : List String} {f t : String} {path : List String} {amounts : List ℕ}
    (h : getAmountsWithFallback oracle amountIn path0 f t = Except.ok (path, amounts)) :
    path = path0 ∨ (2 < path0.length ∧ path = [f, t]) := by
  unfold getAmountsWithFallback at h
  split at h
  · simp only [Except.ok.injEq, Prod.mk.injEq] at h
    exact Or.inl h.1.symm
  · split at h
    · rename_i hl
      split at h
      · simp only [Except.ok.injEq, Prod.mk.injEq] at h
        exact Or.inr ⟨hl, h.1.symm⟩
      · cases h
    · cases h

lemma int_log2_eq (q : ℚ) (e : ℤ) (h1 : (2 : ℚ) ^ e ≤ q) (h2 : q < (2 : ℚ) ^ (e + 1)) :
    Int.log 2 q = e := by
  have hq : 0 < q := lt_of_lt_of_le (zpow_pos (by norm_num) e) h1
  have hl := Int.zpow_log_le_self (b := 2) (by norm_num) hq
  have hr := Int.lt_zpow_succ_log_self (b := 2) (by norm_num) q
  by_contra hne
  rcases lt_or_gt_of_ne hne with h | h
  · have hle : Int.log 2 q + 1 ≤ e := by omega
    have : ((2 : ℚ)) ^ (Int.log 2 q + 1) ≤ (2 : ℚ) ^ e :=
      zpow_le_zpow_right₀ (by norm_num) hle
    exact absurd (lt_of_lt_of_le hr (le_trans this h1)) (lt_irrefl _)
  · have hle : e + 1 ≤ Int.log 2 q := by omega
    have : ((2 : ℚ)) ^ (e + 1) ≤ (2 : ℚ) ^ Int.log 2 q :=
      zpow_le_zpow_right₀ (by norm_num) hle
    exact absurd (lt_of_lt_of_le h2 (le_trans this hl)) (lt_irrefl _)

lemma roundToBinary64_eval (q : ℚ) (e k n : ℤ) (he : Int.log 2 q = e)
    (hk : (52 : ℤ) - e = k) (hq : q ≠ 0)
    (hfl : ⌊q * 2 ^ k⌋ = n) (hfr : q * 2 ^ k - n < 1/2) :
    roundToBinary64 q = (n : ℚ) / 2 ^ k := by
  unfold roundToBinary64 roundNearestEven
  rw [if_neg hq, he, hk, hfl]
  rw [if_neg (by linarith), if_pos hfr]

lemma roundToBinary64_eval_tie (q : ℚ) (e k n : ℤ) (he : Int.log 2 q = e)
    (hk : (52 : ℤ) - e = k) (hq : q ≠ 0)
    (hfl : ⌊q * 2 ^ k⌋ = n) (hfr : q * 2 ^ k - n = 1/2) (heven : n % 2 = 0) :
    roundToBinary64 q = (n : ℚ) / 2 ^ k := by
  unfold roundToBinary64 roundNearestEven
  rw [if_neg hq, he, hk, hfl]
  rw [if_neg (by linarith), if_neg (by linarith), if_pos heven]

/-- Binary64 evaluation of the slippage factor at a stored slippage of
18.15: `parseFloat('18.15')` is 5108770827298406 / 2^48, the subtraction
from 100 rounds (on an exact tie, to the even significand) to
5759681710941798 / 2^46, the multiplication by 100 rounds to
8999502673346559 / 2^40 = 8184.99999999999965..., whose floor is 8184. -/
lemma jsSlippageFactor_at_1815 : jsSlippageFactor ((363 : ℚ)/20) = 8184 := by
  have h1 : roundToBinary64 ((363 : ℚ)/20) = (5108770827298406 : ℚ) / 2 ^ (48 : ℤ) :=
    roundToBinary64_eval ((363 : ℚ)/20) 4 48 5108770827298406
      (int_log2_eq ((363 : ℚ)/20) 4 (by norm_num) (by norm_num)) (by norm_num)
      (by norm_num) (by rw [Int.floor_eq_iff] ; norm_num) (by push_cast ; norm_num)
  have h2 : roundToBinary64 ((23038726843767194 : ℚ) / 2 ^ (48 : ℤ)) =
      (5759681710941798 : ℚ) / 2 ^ (46 : ℤ) :=
    roundToBinary64_eval_tie ((23038726843767194 : ℚ) / 2 ^ (48 : ℤ)) 6 46 5759681710941798
      (int_log2_eq ((23038726843767194 : ℚ) / 2 ^ (48 : ℤ)) 6 (by norm_num) (by norm_num))
      (by norm_num)
      (by norm_num) (by rw [Int.floor_eq_iff] ; norm_num) (by push_cast ; norm_num)
      (by norm_num)
  have h3 : roundToBinary64 ((575968171094179800 : ℚ) / 2 ^ (46 : ℤ)) =
      (8999502673346559 : ℚ) / 2 ^ (40 : ℤ) :=
    roundToBinary64_eval ((575968171094179800 : ℚ) / 2 ^ (46 : ℤ)) 12 40 8999502673346559
      (int_log2_eq ((575968171094179800 : ℚ) / 2 ^ (46 : ℤ)) 12 (by norm_num) (by norm_num))
      (by norm_num)
      (by norm_num) (by rw [Int.floor_eq_iff] ; norm_num) (by push_cast ; norm_num)
  unfold jsSlippageFactor
  rw [h1]
  rw [show (100 : ℚ) - (5108770827298406 : ℚ) / 2 ^ (48 : ℤ) =
      (23038726843767194 : ℚ) / 2 ^ (48 : ℤ) by norm_num]
  rw [h2]
  rw [show (5759681710941798 : ℚ) / 2 ^ (46 : ℤ) * 100 =
      (575968171094179800 : ℚ) / 2 ^ (46 : ℤ) by norm_num]
  rw [h3]
  rw [Int.floor_eq_iff] ; norm_num

/-- Binary64 evaluation of the slippage factor at a stored slippage of 0.5:
every intermediate value (0.5, 99.5, 9950) is exactly representable, so the
factor is exactly 9950. -/
lemma jsSlippageFactor_at_half : jsSlippageFactor ((1 : ℚ)/2) = 9950 := by
  have h1 : roundToBinary64 ((1 : ℚ)/2) = (4503599627370496 : ℚ) / 2 ^ (53 : ℤ) :=
    roundToBinary64_eval ((1 : ℚ)/2) (-1) 53 4503599627370496
      (int_log2_eq ((1 : ℚ)/2) (-1) (by norm_num) (by norm_num)) (by norm_num)
      (by norm_num) (by rw [Int.floor_eq_iff] ; norm_num) (by push_cast ; norm_num)
  have h2 : roundToBinary64 ((896216325846728704 : ℚ) / 2 ^ (53 : ℤ)) =
      (7001690045677568 : ℚ) / 2 ^ (46 : ℤ) :=
    roundToBinary64_eval ((896216325846728704 : ℚ) / 2 ^ (53 : ℤ)) 6 46 7001690045677568
      (int_log2_eq ((896216325846728704 : ℚ) / 2 ^ (53 : ℤ)) 6 (by norm_num) (by norm_num))
      (by norm_num)
      (by norm_num) (by rw [Int.floor_eq_iff] ; norm_num) (by push_cast ; norm_num)
  have h3 : roundToBinary64 ((700169004567756800 : ℚ) / 2 ^ (46 : ℤ)) =
      (5470070348185600 : ℚ) / 2 ^ (39 : ℤ) :=
    roundToBinary64_eval ((700169004567756800 : ℚ) / 2 ^ (46 : ℤ)) 13 39 5470070348185600
      (int_log2_eq ((700169004567756800 : ℚ) / 2 ^ (46 : ℤ)) 13 (by norm_num) (by norm_num))
      (by norm_num)
      (by norm_num) (by rw [Int.floor_eq_iff] ; norm_num) (by push_cast ; norm_num)
  unfold jsSlippageFactor
  rw [h1]
  rw [show (100 : ℚ) - (4503599627370496 : ℚ) / 2 ^ (53 : ℤ) =
      (896216325846728704 : ℚ) / 2 ^ (53 : ℤ) by norm_num]
  rw [h2]
  rw [show (7001690045677568 : ℚ) / 2 ^ (46 : ℤ) * 100 =
      (700169004567756800 : ℚ) / 2 ^ (46 : ℤ) by norm_num]
  rw [h3]
  rw [Int.floor_eq_iff] ; norm_num

end Achswap

namespace Achswap

/-! ## Claims -/

/-- C1: for every from-, to- and wrapped-token address, the built path is:
after translating the native sentinel on both ends to the wrapped address,
the degenerate 2-element pair when the translated ends coincide, the direct
2-element pair when either translated end is the wrapped address, and
`[from, wrapped, to]` otherwise; in particular a swap from the native
sentinel to a non-wrapped, non-native token yields the 2-element
`[wrapped, to]`, never the 3-element form. -/
theorem buildPath_case_analysis (f t w : String) :
    (translateNative f w = translateNative t w →
      buildPath f t w = [translateNative f w, translateNative t w])
  ∧ (translateNative f w ≠ translateNative t w →
      (translateNative f w = w ∨ translateNative t w = w) →
      buildPath f t w = [translateNative f w, translateNative t w])
  ∧ (translateNative f w ≠ translateNative t w →
      translateNative f w ≠ w → translateNative t w ≠ w →
      buildPath f t w = [translateNative f w, w, translateNative t w])
  ∧ (f = zeroAddress → t ≠ zeroAddress → t ≠ w →
      buildPath f t w = [w, t]) := by
  refine ⟨fun h1 => ?_, fun h1 h2 => ?_, fun h1 h2 h3 => ?_, fun h1 h2 h3 => ?_⟩
  · simp only [buildPath]
    rw [if_pos h1]
  · simp only [buildPath]
    rw [if_neg h1, if_pos h2]
  · simp only [buildPath]
    rw [if_neg h1, if_neg (by tauto)]
  · subst h1
    simp only [buildPath, translateNative_zero, translateNative_of_ne w h2]
    rw [if_neg (Ne.symm h3)]
    simp

/-- Witness for C1: the native-to-token scenario at concrete addresses. -/
theorem buildPath_case_analysis_witness :
    buildPath zeroAddress "0xbbbb" "0xwwww" = ["0xwwww", "0xbbbb"] :=
  (buildPath_case_analysis zeroAddress "0xbbbb" "0xwwww").2.2.2 rfl (by decide) (by decide)

/-- C2 counterexample: when both the 3-element quote and the direct retry
fail inside `handleSwap`, the operation fails with the fixed no-route
message, which is not the original error ("boom") — the original error is
not propagated in the swap flow. -/
theorem swap_no_route_discards_original_error :
    swapGetAmounts failingOracle 7 (buildPath "0xaaaa" "0xbbbb" "0xwwww")
        "0xaaaa" "0xbbbb" "wUSDC" "USDC" =
      Except.error (noRouteMessage "wUSDC" "USDC")
  ∧ noRouteMessage "wUSDC" "USDC" ≠ "boom"
  ∧ failingOracle 7 (buildPath "0xaaaa" "0xbbbb" "0xwwww") = Except.error "boom" :=
  ⟨by decide, by decide, by decide⟩

/-- C2 (amended): the failed quote on a 3-element path is retried exactly
once on the untranslated direct pair, whose amounts and path feed the
output and the price-impact estimation; when the retry also fails, or the
failing path had 2 elements (no retry), the quote flow (`fetchQuote`)
rethrows the original first error while the swap flow (`handleSwap`) fails
with a fixed no-route message replacing the original error. -/
theorem quote_fallback_policy (oracle : QuoteOracle) (amountIn : ℕ)
    (f t w wSym nSym : String) :
    (∀ amounts, oracle amountIn (buildPath f t w) = Except.ok amounts →
      fetchQuoteResult oracle amountIn f t w =
        Except.ok (buildPath f t w, lastAmount amounts,
          priceImpactBps oracle amountIn (buildPath f t w) (lastAmount amounts)))
  ∧ (∀ e amounts, oracle amountIn (buildPath f t w) = Except.error e →
      (buildPath f t w).length = 3 →
      oracle amountIn [f, t] = Except.ok amounts →
      fetchQuoteResult oracle amountIn f t w =
        Except.ok ([f, t], lastAmount amounts,
          priceImpactBps oracle amountIn [f, t] (lastAmount amounts)) ∧
      swapGetAmounts oracle amountIn (buildPath f t w) f t wSym nSym =
        Except.ok ([f, t], amounts))
  ∧ (∀ e₁ e₂, oracle amountIn (buildPath f t w) = Except.error e₁ →
      (buildPath f t w).length = 3 →
      oracle amountIn [f, t] = Except.error e₂ →
      fetchQuoteResult oracle amountIn f t w = Except.error e₁ ∧
      swapGetAmounts oracle amountIn (buildPath f t w) f t wSym nSym =
        Except.error (noRouteMessage wSym nSym))
  ∧ (∀ e, (buildPath f t w).length = 2 →
      oracle amountIn (buildPath f t w) = Except.error e →
      fetchQuoteResult oracle amountIn f t w = Except.error e ∧
      swapGetAmounts oracle amountIn (buildPath f t w) f t wSym nSym =
        Except.error (noRouteMessage wSym nSym)) := by
  refine ⟨fun amounts h => ?_, fun e amounts h h3 h2 => ⟨?_, ?_⟩,
    fun e₁ e₂ h h3 h2 => ⟨?_, ?_⟩, fun e h2 h => ⟨?_, ?_⟩⟩
  · simp only [fetchQuoteResult, getAmountsWithFallback, h]
  · simp only [fetchQuoteResult, getAmountsWithFallback, h, h3, h2]
    norm_num
  · simp only [swapGetAmounts, h, h3, h2]
    norm_num
  · simp only [fetchQuoteResult, getAmountsWithFallback, h, h3, h2]
    norm_num
  · simp only [swapGetAmounts, h, h3, h2]
    norm_num
  · simp only [fetchQuoteResult, getAmountsWithFallback, h, h2]
    norm_num
  · simp only [swapGetAmounts, h, h2]
    norm_num

/-- Witness for C2: with a pool only on the direct pair, the quote falls
back to the 2-element path and estimates impact on it. -/
theorem quote_fallback_policy_witness :
    fetchQuoteResult demoOracle 7 "0xaaaa" "0xbbbb" "0xwwww" =
      Except.ok (["0xaaaa", "0xbbbb"], 50,
        priceImpactBps demoOracle 7 ["0xaaaa", "0xbbbb"] 50) :=
  ((quote_fallback_policy demoOracle 7 "0xaaaa" "0xbbbb" "0xwwww" "wUSDC" "USDC").2.1
    "no pool" [100, 50] (by decide) (by decide) (by decide)).1

/-- C3 counterexample: with a successful main quote of 0 and a half-input
quote of 5 (expected = 10 > 0), the code reports impact 0 because of its
extra `outputAmount > 0` guard, while the spec formula
`|expected - O| * 10000 / expected` gives 10000. -/
theorem price_impact_zero_output_cx :
    priceImpactBps halfRichOracle 10 ["0xaaaa", "0xwwww"] 0 = 0
  ∧ halfRichOracle (10 / 2) ["0xaaaa", "0xwwww"] = Except.ok [5]
  ∧ specImpactBps (lastAmount [5] * 2) 0 = 10000
  ∧ (0 : ℕ) ≠ 10000 :=
  ⟨by decide, by decide, by decide, by decide⟩

/-- C3 (amended): with H = A/2 in integer division, the impact is 0 when
H = 0 (no secondary quote can change this), 0 when the secondary quote
fails, and equal to the spec formula `|expected - O| * 10000 / expected`
exactly when both expected > 0 and O > 0 — when either is 0 the code
reports 0; the reported percent is the basis-point value divided by 100. -/
theorem price_impact_characterization (oracle : QuoteOracle) (amountIn : ℕ)
    (path : List String) (outputAmount : ℕ) :
    (amountIn / 2 = 0 → priceImpactBps oracle amountIn path outputAmount = 0)
  ∧ (∀ e, oracle (amountIn / 2) path = Except.error e →
      priceImpactBps oracle amountIn path outputAmount = 0)
  ∧ (∀ halfQuotes, 0 < amountIn / 2 →
      oracle (amountIn / 2) path = Except.ok halfQuotes →
      0 < lastAmount halfQuotes * 2 → 0 < outputAmount →
      priceImpactBps oracle amountIn path outputAmount =
        specImpactBps (lastAmount halfQuotes * 2) outputAmount)
  ∧ (∀ halfQuotes, oracle (amountIn / 2) path = Except.ok halfQuotes →
      (lastAmount halfQuotes * 2 = 0 ∨ outputAmount = 0) →
      priceImpactBps oracle amountIn path outputAmount = 0)
  ∧ priceImpactPercent oracle amountIn path outputAmount =
      (priceImpactBps oracle amountIn path outputAmount : ℚ) / 100 := by
  refine ⟨fun h0 => ?_, fun e he => ?_, fun hq hpos hok he ho => ?_,
    fun hq hok hz => ?_, rfl⟩
  · simp [priceImpactBps, h0]
  · by_cases hpos : amountIn / 2 > 0
    · simp only [priceImpactBps, if_pos hpos, he]
    · simp only [priceImpactBps, if_neg hpos]
  · unfold priceImpactBps specImpactBps
    rw [if_pos hpos, hok]
    simp only [gt_iff_lt]
    rw [if_pos ⟨he, ho⟩, if_pos he]
    by_cases hcmp : outputAmount < lastAmount hq * 2
    · rw [if_pos hcmp]
      have hab : (((lastAmount hq * 2 : ℕ) : ℤ) - (outputAmount : ℤ)).natAbs =
          lastAmount hq * 2 - outputAmount := by omega
      rw [hab]
    · rw [if_neg hcmp]
      have hab : (((lastAmount hq * 2 : ℕ) : ℤ) - (outputAmount : ℤ)).natAbs =
          outputAmount - lastAmount hq * 2 := by omega
      rw [hab]
  · by_cases hpos : amountIn / 2 > 0
    · unfold priceImpactBps
      rw [if_pos hpos, hok]
      simp only [gt_iff_lt]
      rw [if_neg (by omega)]
    · unfold priceImpactBps
      rw [if_neg hpos]

/-- Witness for C3: a concrete positive-output evaluation matching the spec
formula. -/
theorem price_impact_characterization_witness :
    priceImpactBps halfRichOracle 10 ["0xaaaa", "0xwwww"] 50 =
      specImpactBps (lastAmount [5] * 2) 50 :=
  (price_impact_characterization halfRichOracle 10 ["0xaaaa", "0xwwww"] 50).2.2.1 [5]
    (by decide) (by decide) (by decide) (by decide)

/-- C4: at a stored slippage of 18.15 (in the allowed range [0, 50]) and a
quoted output of 10000, the code's binary64 evaluation of
`Math.floor((100 - slippage) * 100)` yields 8184, so `amountOutMin` is
8184, while the exact integer formula of the claim yields 8185 — the
floating-point detour does change the submitted minimum output.  At the
claim's own scenario (slippage 0.5, quoted output 1000000) both agree on
995000. -/
theorem amount_out_min_float_bug :
    amountOutMin 10000 ((363 : ℚ)/20) = 8184
  ∧ specAmountOutMin 10000 ((363 : ℚ)/20) = 8185
  ∧ amountOutMin 1000000 ((1 : ℚ)/2) = 995000
  ∧ specAmountOutMin 1000000 ((1 : ℚ)/2) = 995000 := by
  have hspec1 : specSlippageFactor ((363 : ℚ)/20) = 8185 := by
    unfold specSlippageFactor
    rw [Int.floor_eq_iff] ; norm_num
  have hspec2 : specSlippageFactor ((1 : ℚ)/2) = 9950 := by
    unfold specSlippageFactor
    rw [Int.floor_eq_iff] ; norm_num
  refine ⟨?_, ?_, ?_, ?_⟩
  · unfold amountOutMin
    rw [jsSlippageFactor_at_1815]
    decide
  · unfold specAmountOutMin
    rw [hspec1]
    decide
  · unfold amountOutMin
    rw [jsSlippageFactor_at_half]
    decide
  · unfold specAmountOutMin
    rw [hspec2]
    decide

/-- C5 counterexample: a 42-character 0x-string of non-hex characters is
not a syntactically valid address, yet the code passes it to the router as
the recipient instead of the wallet address. -/
theorem recipient_accepts_non_hex :
    resolveRecipient "0xZZZZZZZZZZZZZZZZZZZZZZZZZZZZZZZZZZZZZZZZ" "0xwallet" =
      "0xZZZZZZZZZZZZZZZZZZZZZZZZZZZZZZZZZZZZZZZZ"
  ∧ specValidAddress "0xZZZZZZZZZZZZZZZZZZZZZZZZZZZZZZZZZZZZZZZZ" = false
  ∧ "0xZZZZZZZZZZZZZZZZZZZZZZZZZZZZZZZZZZZZZZZZ" ≠ "0xwallet" :=
  ⟨by decide, by decide, by decide⟩

/-- C5 (amended): the recipient is `settings.recipientAddress` exactly when
that string is nonempty, starts with `0x` and has length 42 — hexness of
the remaining 40 characters is not checked — and the connected wallet
address otherwise; in particular every syntactically valid address is
used. -/
theorem recipient_resolution (r wallet : String) :
    (specValidAddress r = true → resolveRecipient r wallet = r)
  ∧ (r.data.take 2 = ['0', 'x'] → r.length = 42 → resolveRecipient r wallet = r)
  ∧ (¬(r.data.take 2 = ['0', 'x'] ∧ r.length = 42) →
      resolveRecipient r wallet = wallet) := by
  have hne : r.length = 42 → r ≠ "" := by
    intro hlen hemp
    rw [hemp] at hlen
    simp at hlen
  refine ⟨fun hv => ?_, fun hp hlen => ?_, fun hn => ?_⟩
  · simp only [specValidAddress, Bool.and_eq_true, beq_iff_eq] at hv
    obtain ⟨⟨hp, hlen⟩, _⟩ := hv
    have hlen' : r.length = 42 := by exact_mod_cast hlen
    unfold resolveRecipient
    rw [if_pos ⟨hne hlen', hp, hlen'⟩]
  · unfold resolveRecipient
    rw [if_pos ⟨hne hlen, hp, hlen⟩]
  · unfold resolveRecipient
    rw [if_neg (by tauto)]

/-- Witness for C5: a valid 40-hex-digit address is used as recipient. -/
theorem recipient_resolution_witness :
    resolveRecipient "0x00112233445566778899aabbccddeeff00112233" "0xwallet" =
      "0x00112233445566778899aabbccddeeff00112233" :=
  (recipient_resolution "0x00112233445566778899aabbccddeeff00112233" "0xwallet").1
    (by decide)

/-- C6 counterexample: chain id 1 has no entry in the chain-config table,
yet `getChainConfig` returns the default configuration instead of failing
(it is a total function). -/
theorem chain_config_fallback_cx :
    chainConfigTable 1 = none ∧ getChainConfig 1 = arcChainDisplayConfig :=
  ⟨rfl, rfl⟩

/-- C6 (amended): the contract-address lookup `getContractsForChain` fails
on every unconfigured chain id and returns the stored entry unchanged on
configured ids, while the display-config lookup `getChainConfig` never
fails: it returns the stored entry when present and the Arc default
otherwise. -/
theorem chain_registry_lookup (chainId : ℕ) :
    (∀ c, contractsByChainId chainId = some c →
      getContractsForChain chainId = Except.ok c)
  ∧ (contractsByChainId chainId = none →
      getContractsForChain chainId =
        Except.error ("No contracts configured for chain ID " ++ toString chainId))
  ∧ (∀ cfg, chainConfigTable chainId = some cfg → getChainConfig chainId = cfg)
  ∧ (chainConfigTable chainId = none →
      getChainConfig chainId = arcChainDisplayConfig) := by
  refine ⟨fun c hc => ?_, fun hn => ?_, fun cfg hc => ?_, fun hn => ?_⟩
  · unfold getContractsForChain
    rw [hc]
  · unfold getContractsForChain
    rw [hn]
  · unfold getChainConfig
    rw [hc]
    rfl
  · unfold getChainConfig
    rw [hn]
    rfl

/-- Witness for C6: the configured chain id 5042002 and the unconfigured
chain id 1. -/
theorem chain_registry_lookup_witness :
    getContractsForChain 5042002 =
      Except.ok { factory := "0x7cC023C7184810B84657D55c1943eBfF8603B72B",
                  router := "0xB92428D440c335546b69138F7fAF689F5ba8D436",
                  explorer := "https://testnet.arcscan.app/tx/" }
  ∧ getChainConfig 1 = arcChainDisplayConfig :=
  ⟨(chain_registry_lookup 5042002).1 _ (by rfl),
   (chain_registry_lookup 1).2.2.2 (by rfl)⟩

/-- C7: in the token-to-token and token-to-native branches, the allowance
is read fresh; when it covers `amountIn` no approval call of any kind is
made and only the swap is gas-estimated and submitted; otherwise an
approval for exactly `amountIn` is estimated, submitted and awaited before
the swap is gas-estimated and submitted. -/
theorem approval_policy (allowance amountIn : ℕ) :
    (allowance ≥ amountIn →
      approveThenSwapCalls allowance amountIn =
        [SwapCall.readAllowance, SwapCall.swapGasEstimate, SwapCall.submitSwap])
  ∧ (allowance < amountIn →
      approveThenSwapCalls allowance amountIn =
        [SwapCall.readAllowance, SwapCall.approveGasEstimate amountIn,
         SwapCall.approve amountIn, SwapCall.awaitApprovalReceipt,
         SwapCall.swapGasEstimate, SwapCall.submitSwap])
  ∧ (∀ a, SwapCall.approve a ∈ approveThenSwapCalls allowance amountIn →
      a = amountIn ∧ allowance < amountIn) := by
  refine ⟨fun h => ?_, fun h => ?_, fun a ha => ?_⟩
  · simp [approveThenSwapCalls, Nat.not_lt.mpr h]
  · simp [approveThenSwapCalls, h]
  · by_cases h : allowance < amountIn
    · simp [approveThenSwapCalls, h] at ha
      exact ⟨ha, h⟩
    · simp [approveThenSwapCalls, h] at ha

/-- Witness for C7: allowance 5 against amount 3 (no approval) and
allowance 2 against amount 3 (approval for exactly 3 first). -/
theorem approval_policy_witness :
    approveThenSwapCalls 5 3 =
      [SwapCall.readAllowance, SwapCall.swapGasEstimate, SwapCall.submitSwap]
  ∧ approveThenSwapCalls 2 3 =
      [SwapCall.readAllowance, SwapCall.approveGasEstimate 3, SwapCall.approve 3,
       SwapCall.awaitApprovalReceipt, SwapCall.swapGasEstimate, SwapCall.submitSwap] :=
  ⟨(approval_policy 5 3).1 (by decide), (approval_policy 2 3).2.1 (by decide)⟩

/-- C8: the built path never has a native-sentinel endpoint (given that the
wrapped-token address is not the sentinel); a 3-element built path is
exactly `[from, wrapped, to]` with both original ends non-native; and every
path actually returned by the quote pipeline — including the direct
fallback path — has non-sentinel endpoints and a wrapped interior when it
has 3 elements. -/
theorem used_path_invariant (oracle : QuoteOracle) (amountIn : ℕ)
    (f t w : String) (hw : w ≠ zeroAddress) :
    ((buildPath f t w).head? ≠ some zeroAddress ∧
     (buildPath f t w).getLast? ≠ some zeroAddress)
  ∧ ((buildPath f t w).length = 3 →
      buildPath f t w = [f, w, t] ∧ f ≠ zeroAddress ∧ t ≠ zeroAddress)
  ∧ (∀ path output impact,
      fetchQuoteResult oracle amountIn f t w = Except.ok (path, output, impact) →
      path.head? ≠ some zeroAddress ∧ path.getLast? ≠ some zeroAddress ∧
      (path.length = 3 → path.getD 1 zeroAddress = w)) := by
  have hf' : translateNative f w ≠ zeroAddress := translateNative_ne_zero hw
  have ht' : translateNative t w ≠ zeroAddress := translateNative_ne_zero hw
  have hends : (buildPath f t w).head? ≠ some zeroAddress ∧
      (buildPath f t w).getLast? ≠ some zeroAddress := by
    rcases buildPath_shape f t w with hs | hs <;> rw [hs] <;>
      exact ⟨by simp [hf'], by simp [ht']⟩
  refine ⟨hends, buildPath_length_three, fun path output impact h => ?_⟩
  have hcall : ∃ amounts,
      getAmountsWithFallback oracle amountIn (buildPath f t w) f t =
        Except.ok (path, amounts) := by
    unfold fetchQuoteResult at h
    cases hg : getAmountsWithFallback oracle amountIn (buildPath f t w) f t with
    | error e =>
      rw [hg] at h
      cases h
    | ok pa =>
      obtain ⟨p, amts⟩ := pa
      rw [hg] at h
      simp only [Except.ok.injEq, Prod.mk.injEq] at h
      exact ⟨amts, by rw [h.1]⟩
  obtain ⟨amounts, hcall⟩ := hcall
  rcases getAmountsWithFallback_path_cases hcall with hp | ⟨hlen, hp⟩
  · subst hp
    refine ⟨hends.1, hends.2, fun h3 => ?_⟩
    rw [(buildPath_length_three h3).1]
    rfl
  · subst hp
    have h3 : (buildPath f t w).length = 3 := by
      rcases buildPath_shape f t w with hs | hs <;> rw [hs] at hlen ⊢ <;>
        simp at hlen ⊢
    obtain ⟨_, hf, ht⟩ := buildPath_length_three h3
    exact ⟨by simp [hf], by simp [ht], by intro hc; simp at hc⟩

/-- Witness for C8 at concrete addresses and oracle. -/
theorem used_path_invariant_witness :
    (buildPath "0xaaaa" "0xbbbb" "0xwwww").head? ≠ some zeroAddress :=
  (used_path_invariant demoOracle 100 "0xaaaa" "0xbbbb" "0xwwww" (by decide)).1.1

/-- C9: starting from a stored history of at most 50 records, saving a new
record keeps the length at most 50; the record is prepended, and exactly
when the history already held 50 records the oldest (last) one is evicted,
all other records being preserved in order. -/
theorem save_transaction_bounded {α : Type} (tx : α) (txs : List α)
    (h : txs.length ≤ 50) :
    (saveTransaction tx txs).length ≤ 50 ∧
    saveTransaction tx txs =
      (if txs.length = 50 then tx :: txs.dropLast else tx :: txs) := by
  unfold saveTransaction
  by_cases h50 : txs.length = 50
  · have hgt : (tx :: txs).length > 50 := by simp [h50]
    rw [if_pos hgt, if_pos h50]
    cases txs with
    | nil => simp at h50
    | cons a as =>
      constructor
      · simp_all [List.length_dropLast]
      · simp [List.dropLast]
  · have hle : ¬(tx :: txs).length > 50 := by simp; omega
    rw [if_neg hle, if_neg h50]
    exact ⟨by simp; omega, rfl⟩

/-- Witness for C9: a full 50-record history stays at 50 after a save. -/
theorem save_transaction_bounded_witness :
    (saveTransaction 0 (List.range 50)).length ≤ 50 :=
  (save_transaction_bounded 0 (List.range 50) (by simp)).1

/-- C10: the swap-direction flip exchanges the two token selections and the
two amount fields, leaves every other settings field unchanged, and is an
involution. -/
theorem handle_swap_tokens_involution {τ : Type} (s : SwapUIState τ) :
    handleSwapTokens (handleSwapTokens s) = s
  ∧ (handleSwapTokens s).fromToken = s.toToken
  ∧ (handleSwapTokens s).toToken = s.fromToken
  ∧ (handleSwapTokens s).fromAmount = s.toAmount
  ∧ (handleSwapTokens s).toAmount = s.fromAmount
  ∧ (handleSwapTokens s).slippage = s.slippage
  ∧ (handleSwapTokens s).deadline = s.deadline
  ∧ (handleSwapTokens s).recipientAddress = s.recipientAddress :=
  ⟨rfl, rfl, rfl, rfl, rfl, rfl, rfl, rfl⟩

end Achswap
